import Mathlib

/-
Verification of the mug client (src/client/client.go) against its
natural-language specification.

The embedding models Go strings as Lean `String` (sequences of characters;
the inputs at issue are ASCII, where Go's byte indexing and Lean's character
indexing agree).  Side effects of the dispatch path are recorded as an
explicit event trace; Go runtime panics are modelled by an explicit
`panicMsg` field.  External collaborators (the gocui view that yields the
current input line, the otto evaluator, the TCP dialer and the peer) are
modelled as parameters, per the spec's collaborator contracts.
-/

namespace Mug

/-- Whitespace predicate of Go's `unicode.IsSpace` restricted to the Latin-1
range, used by `strings.TrimSpace`. -/
def isGoSpace (c : Char) : Bool :=
  c = ' ' || c = '\t' || c = '\n' || c = (Char.ofNat 11) || c = (Char.ofNat 12) ||
  c = '\r' || c = (Char.ofNat 133) || c = (Char.ofNat 160)

/-- Embedding of `strings.TrimSpace`: remove leading and trailing whitespace. -/
def goTrimSpace (s : String) : String :=
  String.mk (((s.toList.dropWhile isGoSpace).reverse.dropWhile isGoSpace).reverse)

/-- Escape of a single character as produced by Go's `%#v` verb on strings
(`strconv.Quote`), restricted to the printable ASCII inputs in play. -/
def goQuoteChar (c : Char) : String :=
  if c = '\\' then "\\\\"
  else if c = '"' then "\\\""
  else if c = '\n' then "\\n"
  else if c = '\t' then "\\t"
  else if c = '\r' then "\\r"
  else String.singleton c

/-- Embedding of Go's `%#v` formatting of a string: the string wrapped in
double quotes with special characters escaped. -/
def goQuote (s : String) : String :=
  "\"" ++ String.join (s.toList.map goQuoteChar) ++ "\""

/-- Message of `Outputf("Error executing %#v: %v\n", line[1:], e)`
(client.go line 49). -/
def errExecutingMsg (expr cause : String) : String :=
  "Error executing " ++ goQuote expr ++ ": " ++ cause ++ "\n"

/-- Message of `Outputf("Nowhere to send %#v\n", line)` (client.go line 58). -/
def nowhereMsg (payload : String) : String :=
  "Nowhere to send " ++ goQuote payload ++ "\n"

/-- Message of `Outputf("Disconnected from %#v: %v\n", host, err)`
(client.go line 90). -/
def disconnectedMsg (host cause : String) : String :=
  "Disconnected from " ++ goQuote host ++ ": " ++ cause ++ "\n"

/-- Message of `fmt.Errorf("Error connecting to %#v: %v", target, err)`
(client.go line 99). -/
def connectErrMsg (target cause : String) : String :=
  "Error connecting to " ++ goQuote target ++ ": " ++ cause

/-- Message of `fmt.Sprintf("Connected to %#v", target)` (client.go line 102). -/
def connectOkMsg (target : String) : String :=
  "Connected to " ++ goQuote target

/-- One observable side effect of the dispatch path or of a reader. -/
inductive Event where
  /-- `v.Clear()`: the input view's content is erased. -/
  | clearInput : Event
  /-- `v.SetCursor(x, y)`: the input view's cursor is repositioned. -/
  | setCursor (x y : Nat) : Event
  /-- `Outputf(...)`: text appended to the output view. -/
  | output (s : String) : Event
  /-- `self.ot.Run(expr)`: the expression handed to the otto evaluator. -/
  | scriptRun (expr : String) : Event
  /-- `fmt.Fprintln(conn, ...)`: the exact bytes written to the connection. -/
  | netWrite (bytes : String) : Event
  deriving DecidableEq, Repr

/-- Result of one `handleLine` invocation: the event trace, whether a Go
runtime panic occurred (and its message), and the error value `handleLine`
returns to gocui. -/
structure HandleOutcome where
  events : List Event
  panicMsg : Option String
  retErr : Option String
  deriving DecidableEq, Repr

/-- Embedding of `handleLine` (client.go lines 36-63).  `lineRead` is the
result of `v.Line(0)`; `conn` is the Connection Slot's current handle
(`getConn`), identified by a numeric id; `ot` models `self.ot.Run`
(the external otto evaluator), returning a displayable value or an error;
`writeRes` is the result of the `fmt.Fprintln` network write, whose value the
source discards.  The source trims the line, then evaluates
`line[:len(line)-1]` — dropping the final character of the trimmed line — and
then indexes `line[0]`; the two out-of-range panics this can raise are
modelled in `panicMsg`. -/
def handleLine : Except String String → Option Nat →
    (String → Except String String) → Option String → HandleOutcome
  | .error e, _, _, _ => { events := [], panicMsg := none, retErr := some e }
  | .ok line, conn, ot, _ =>
    if line.length > 0 then
      match (goTrimSpace line).toList with
      | [] =>
        -- line[:len(line)-1] on the empty trimmed string: slice bound -1
        { events := [.clearInput, .setCursor 0 0],
          panicMsg := some "slice bounds out of range", retErr := none }
      | c :: cs =>
        match (c :: cs).dropLast with
        | [] =>
          -- line[0] on the now-empty string: index out of range
          { events := [.clearInput, .setCursor 0 0],
            panicMsg := some "index out of range", retErr := none }
        | c0 :: rest =>
          if c0 = '/' then
            match ot (String.mk rest) with
            | .error e =>
              { events := [.clearInput, .setCursor 0 0,
                  .scriptRun (String.mk rest),
                  .output (errExecutingMsg (String.mk rest) e)],
                panicMsg := none, retErr := none }
            | .ok v =>
              { events := [.clearInput, .setCursor 0 0,
                  .scriptRun (String.mk rest), .output (v ++ "\n")],
                panicMsg := none, retErr := none }
          else
            match conn with
            | some _ =>
              { events := [.clearInput, .setCursor 0 0,
                  .netWrite (String.mk (c0 :: rest) ++ "\n")],
                panicMsg := none, retErr := none }
            | none =>
              { events := [.clearInput, .setCursor 0 0,
                  .output (nowhereMsg (String.mk (c0 :: rest)))],
                panicMsg := none, retErr := none }
    else
      { events := [.clearInput, .setCursor 0 0], panicMsg := none, retErr := none }

/-- A stand-in for the external otto evaluator that rejects every expression
with a syntax error, as otto does on the truncated expression the dispatcher
produces. -/
def ottoStub : String → Except String String :=
  fun _ => Except.error "SyntaxError: Unexpected end of input"

/-- State of the Connection Slot together with the history of close calls.
`conn` is the value `getConn` (an atomic pointer load, client.go line 32)
returns; handles are identified by the order of their creation (0, 1, ...);
`closed` records every `Close()` call on a handle, in order; `nextId` is the
id the next successfully dialed connection receives. -/
structure SlotState where
  conn : Option Nat
  closed : List Nat
  nextId : Nat
  deriving DecidableEq, Repr

/-- Embedding of `getConn` (client.go lines 32-34): the current content of
the Connection Slot. -/
def SlotState.getConn (st : SlotState) : Option Nat := st.conn

/-- Slot state of a freshly constructed client (`New`, client.go lines
129-135): no connection, nothing closed. -/
def initialSlot : SlotState := { conn := none, closed := [], nextId := 0 }

/-- Embedding of `setConn` (client.go lines 65-73): load the old handle,
close it if present, then swap in the new one.  In the sequential model the
`CompareAndSwapPointer(old, new)` always succeeds — the slot still holds
`old` — so the recursive retry branch is never taken. -/
def setConn (c : Option Nat) (st : SlotState) : SlotState :=
  match st.conn with
  | some old => { st with closed := st.closed ++ [old], conn := c }
  | none => { st with conn := c }

/-- Outcome of the external resolver and dialer for one `connect` call:
`net.ResolveTCPAddr` fails, `net.DialTCP` fails, or a fresh connection is
obtained. -/
inductive DialOutcome where
  | resolveErr (e : String)
  | dialErr (e : String)
  | ok
  deriving DecidableEq, Repr

/-- Result of one `connect` call (client.go lines 75-94): the returned error,
the slot state afterwards, and whether a Connection Reader goroutine was
spawned. -/
structure ConnectResult where
  retErr : Option String
  st : SlotState
  readerSpawned : Bool
  deriving DecidableEq, Repr

/-- Embedding of `connect` (client.go lines 75-94).  On a resolve or dial
error it returns that error with the state untouched; on success it spawns a
reader bound to the fresh handle and installs the handle with `setConn`. -/
def connect (out : DialOutcome) (st : SlotState) : ConnectResult :=
  match out with
  | .resolveErr e => { retErr := some e, st := st, readerSpawned := false }
  | .dialErr e => { retErr := some e, st := st, readerSpawned := false }
  | .ok =>
    { retErr := none,
      st := setConn (some st.nextId) { st with nextId := st.nextId + 1 },
      readerSpawned := true }

/-- A sequence of `connect` calls, run left to right against the slot. -/
def runConnects (outs : List DialOutcome) (st : SlotState) : SlotState :=
  outs.foldl (fun s o => (connect o s).st) st

/-- Whether a `connect` call succeeded (resolver and dialer both succeeded). -/
def isOk : DialOutcome → Bool
  | .ok => true
  | _ => false

/-- Number of successful `connect` calls in a sequence. -/
def successCount (outs : List DialOutcome) : Nat :=
  outs.countP isOk

/-- The slot state after `k` successful installs (and any number of failed
attempts): the current handle is the last of `0, ..., k-1`, and exactly the
earlier ones have been closed, in order. -/
def slotAfter (k : Nat) : SlotState :=
  { conn := (List.range k).getLast?,
    closed := (List.range k).dropLast,
    nextId := k }

/-- Embedding of the Connection Reader goroutine spawned by `connect`
(client.go lines 84-91).  The external connection's behaviour is modelled by
the finite list of bytes its reads deliver before the first read that
returns a non-nil error, together with that error's message: the loop
outputs `string(buf)` for each delivered byte, and on the failing read exits
and outputs the disconnect notice.  The returned list is the sequence of
Output Stream appends the reader performs; the function is structurally
recursive, so the reader terminates and never restarts. -/
def readerLoop (host : String) (bytes : List Char) (cause : String) : List String :=
  match bytes with
  | [] => [disconnectedMsg host cause]
  | b :: rest => String.singleton b :: readerLoop host rest cause

/-- The value an otto binding returns to the evaluator: either a plain
(string) value or a wrapped Go error value (`otto.ToValue(fmt.Errorf(...))`). -/
inductive OttoValue where
  | str (s : String)
  | errVal (msg : String)
  deriving DecidableEq, Repr

/-- Embedding of the `connect` binding installed by `bindOtto` (client.go
lines 96-105): call `connect`; on error return a wrapped error value naming
the target and the cause, on success return a confirmation string. -/
def connectBinding (target : String) (out : DialOutcome) (st : SlotState) :
    OttoValue × SlotState :=
  let r := connect out st
  match r.retErr with
  | some e => (.errVal (connectErrMsg target e), r.st)
  | none => (.str (connectOkMsg target), r.st)

/-- Embedding of `ctrlcTimeout = time.Second` (client.go line 17), in
nanoseconds, the unit of `time.Duration`. -/
def ctrlcTimeout : Int := 1000000000

/-- The debounce state: `ctrlcAt`, the last interrupt-gesture time, as
nanoseconds since the zero time.  Instants are `Int`, matching
`time.Time.Sub`'s signed result. -/
structure CtrlcState where
  ctrlcAt : Int
  deriving DecidableEq, Repr

/-- The value `New` (client.go lines 129-135) leaves in `ctrlcAt`: the Go
zero `time.Time`, i.e. instant 0. -/
def newClientCtrlcAt : Int := 0

/-- Error value a gocui keybinding handler returns: `gocui.ErrorQuit` or any
other error; `none` models a nil error. -/
inductive GoError where
  | errorQuit
  | other (msg : String)
  deriving DecidableEq, Repr

/-- Message of `Outputf("Press C-c again within %v to quit\n", ctrlcTimeout)`
(client.go line 172); `%v` renders `time.Second` as `1s`. -/
def ctrlcWarning : String := "Press C-c again within 1s to quit\n"

/-- Embedding of `ctrlc` (client.go lines 167-174).  `now` is `time.Now()`.
If strictly less than the timeout elapsed since the recorded gesture, return
`gocui.ErrorQuit`; otherwise record `now`, append the warning, and return
nil.  The result is the new state, the Output Stream appends, and the
returned error. -/
def ctrlc (now : Int) (st : CtrlcState) : CtrlcState × List String × Option GoError :=
  if now - st.ctrlcAt < ctrlcTimeout then
    (st, [], some .errorQuit)
  else
    ({ ctrlcAt := now }, [ctrlcWarning], none)

/-- Embedding of `Run`'s treatment of the main loop's resulting error
(client.go lines 123-126): it panics only when the error is non-nil and
different from `gocui.ErrorQuit`, so `ErrorQuit` is a quit with no error. -/
def mainLoopFatal : Option GoError → Bool
  | none => false
  | some .errorQuit => false
  | some (.other _) => true

/-- Events a dispatch may emit after the initial clear and cursor reset:
Output Stream appends, evaluator invocations, and network writes. -/
def isDispatchTailEvent : Event → Bool
  | .output _ => true
  | .scriptRun _ => true
  | .netWrite _ => true
  | _ => false

/-- The effect kinds the spec's frame sentence allows the dispatch path
(clearing the input line, resetting the cursor, appending to the Output
Stream, Scripting Bridge effects); network writes are not in that list. -/
def isClaimedDispatchEffect : Event → Bool
  | .clearInput => true
  | .setCursor _ _ => true
  | .output _ => true
  | .scriptRun _ => true
  | .netWrite _ => false

/-- Every successfully read line yields a trace that starts by clearing the
input view and resetting its cursor, followed only by output appends,
evaluator calls or network writes, and `handleLine` returns a nil error. -/
theorem handleLine_ok_events_shape (line : String) (conn : Option Nat)
    (ot : String → Except String String) (wr : Option String) :
    ∃ rest, (handleLine (.ok line) conn ot wr).events
        = Event.clearInput :: Event.setCursor 0 0 :: rest
      ∧ rest.all isDispatchTailEvent = true
      ∧ (handleLine (.ok line) conn ot wr).retErr = none := by
  simp only [handleLine]
  repeat' split
  all_goals exact ⟨_, rfl, rfl, rfl⟩

/-- A successful install on top of the canonical state after `k` installs
yields the canonical state after `k + 1` installs. -/
theorem connect_ok_slotAfter (k : Nat) :
    (connect .ok (slotAfter k)).st = slotAfter (k + 1) := by
  cases k with
  | zero => rfl
  | succ n =>
    show setConn (some (n + 1)) { slotAfter (n + 1) with nextId := n + 2 }
        = slotAfter (n + 2)
    simp [slotAfter, setConn, List.range_succ, List.getLast?_concat,
      List.dropLast_concat]

/-- Running a sequence of connect calls from the canonical state after `k`
installs lands in the canonical state after `k + (number of successes)`
installs. -/
theorem runConnects_slotAfter (outs : List DialOutcome) :
    ∀ k, runConnects outs (slotAfter k) = slotAfter (k + successCount outs) := by
  induction outs with
  | nil => intro k; simp [runConnects, successCount]
  | cons o rest ih =>
    intro k
    cases o with
    | resolveErr e =>
      show runConnects rest (slotAfter k) = _
      rw [ih]
      simp [successCount, isOk, List.countP_cons]
    | dialErr e =>
      show runConnects rest (slotAfter k) = _
      rw [ih]
      simp [successCount, isOk, List.countP_cons]
    | ok =>
      show runConnects rest (connect .ok (slotAfter k)).st = _
      rw [connect_ok_slotAfter, ih]
      have : successCount (DialOutcome.ok :: rest) = successCount rest + 1 := by
        simp [successCount, isOk, List.countP_cons]
      rw [this]
      congr 1
      omega

/-- C2: after any sequence of connect calls (successes and failures
interleaved, handles numbered 0, 1, ... in order of successful
installation), `getConn` returns exactly the handle installed by the last
successful connect (`none` when there was none), the close events are
exactly the previously-installed handles in order — each closed exactly
once, never twice (`Nodup`) — and the current handle has never been
closed. -/
theorem connect_sequence_single_current (outs : List DialOutcome) :
    (runConnects outs initialSlot).getConn
        = (List.range (successCount outs)).getLast?
    ∧ (runConnects outs initialSlot).closed
        = (List.range (successCount outs)).dropLast
    ∧ (runConnects outs initialSlot).closed.Nodup
    ∧ ∀ c, (runConnects outs initialSlot).getConn = some c →
        c ∉ (runConnects outs initialSlot).closed := by
  have h0 : initialSlot = slotAfter 0 := rfl
  have h := runConnects_slotAfter outs 0
  rw [h0, h, Nat.zero_add]
  refine ⟨rfl, rfl, ?_, ?_⟩
  · exact (List.dropLast_sublist _).nodup (List.nodup_range _)
  · intro c hc
    cases hn : successCount outs with
    | zero =>
      rw [hn] at hc
      simp [slotAfter, SlotState.getConn] at hc
    | succ m =>
      rw [hn] at hc
      have hg : (slotAfter (m + 1)).getConn = some m := by
        simp [slotAfter, SlotState.getConn, List.range_succ, List.getLast?_concat]
      rw [hg] at hc
      injection hc with hcm
      subst hcm
      simp [slotAfter, List.range_succ, List.dropLast_concat, List.mem_range]

/-- Witness for C2: after successes numbered 0, 1, 2 (with an interleaved
failure), the current handle 2 is not among the closed ones. -/
theorem connect_sequence_single_current_witness :
    (2 : Nat) ∉ (runConnects
        [DialOutcome.ok, DialOutcome.resolveErr "x", DialOutcome.ok, DialOutcome.ok]
        initialSlot).closed :=
  (connect_sequence_single_current
      [DialOutcome.ok, DialOutcome.resolveErr "x", DialOutcome.ok, DialOutcome.ok]).2.2.2
    2 (by decide)

/-- A single forwarded byte is never equal to the disconnect notice: the
notice is at least 18 characters long. -/
theorem singleton_ne_disconnectedMsg (b : Char) (host cause : String) :
    String.singleton b ≠ disconnectedMsg host cause := by
  intro h
  have h1 : (String.singleton b).length = (disconnectedMsg host cause).length := by
    rw [h]
  have h2 : (String.singleton b).length = 1 := rfl
  have h3 : "Disconnected from ".length = 18 := rfl
  rw [h2] at h1
  simp only [disconnectedMsg, String.length_append, h3] at h1
  omega

/-- The reader's Output Stream appends are the forwarded bytes, in order,
followed by the single disconnect notice. -/
theorem readerLoop_eq (host cause : String) (bytes : List Char) :
    readerLoop host bytes cause
      = bytes.map String.singleton ++ [disconnectedMsg host cause] := by
  induction bytes with
  | nil => rfl
  | cons b rest ih => simp [readerLoop, ih]

/-- C5: when a Connection Reader's read fails (EOF or error), the Output
Stream receives the forwarded bytes followed by exactly one disconnect
notice naming the original target host and the cause; the notice is the last
append — no further bytes from that reader follow it — and the reader
terminates (the loop is structurally recursive and never restarts). -/
theorem reader_disconnect_notice (host cause : String) (bytes : List Char) :
    readerLoop host bytes cause
      = bytes.map String.singleton ++ [disconnectedMsg host cause]
    ∧ (readerLoop host bytes cause).count (disconnectedMsg host cause) = 1
    ∧ (readerLoop host bytes cause).getLast? = some (disconnectedMsg host cause) := by
  refine ⟨readerLoop_eq host cause bytes, ?_, ?_⟩
  · rw [readerLoop_eq, List.count_append]
    have hz : (bytes.map String.singleton).count (disconnectedMsg host cause) = 0 := by
      apply List.count_eq_zero_of_not_mem
      intro hmem
      obtain ⟨b, _, hb⟩ := List.mem_map.mp hmem
      exact singleton_ne_disconnectedMsg b host cause hb
    rw [hz, List.count_singleton_self]
  · rw [readerLoop_eq, List.getLast?_concat]

/-- C6: an interrupt gesture strictly less than one second after the
previous one returns `gocui.ErrorQuit` — which the main loop treats as a
quit with no error — and any later gesture records the current time, appends
the warning and does not quit.  In particular two gestures 0.2 seconds apart
quit, and a second gesture 1.5 seconds after the first re-issues the
warning. -/
theorem ctrlc_debounce :
    (∀ now st, now - st.ctrlcAt < ctrlcTimeout →
        ctrlc now st = (st, [], some GoError.errorQuit)
          ∧ mainLoopFatal (some GoError.errorQuit) = false)
    ∧ (∀ now st, ctrlcTimeout ≤ now - st.ctrlcAt →
        ctrlc now st = ({ ctrlcAt := now }, [ctrlcWarning], none))
    ∧ ctrlc 10200000000 { ctrlcAt := 10000000000 }
        = ({ ctrlcAt := 10000000000 }, [], some GoError.errorQuit)
    ∧ ctrlc 11500000000 { ctrlcAt := 10000000000 }
        = ({ ctrlcAt := 11500000000 }, [ctrlcWarning], none) := by
  refine ⟨?_, ?_, ?_, ?_⟩
  · intro now st h
    exact ⟨by unfold ctrlc; rw [if_pos h], rfl⟩
  · intro now st h
    unfold ctrlc
    rw [if_neg (by omega)]
  · decide
  · decide

/-- Witness for C6: a second gesture 0.2 seconds after one at instant 0
quits cleanly, and one 1.5 seconds after warns again. -/
theorem ctrlc_debounce_witness :
    (ctrlc 200000000 { ctrlcAt := 0 } = ({ ctrlcAt := 0 }, [], some GoError.errorQuit)
        ∧ mainLoopFatal (some GoError.errorQuit) = false)
    ∧ ctrlc 1500000000 { ctrlcAt := 0 }
        = ({ ctrlcAt := 1500000000 }, [ctrlcWarning], none) :=
  ⟨ctrlc_debounce.1 200000000 { ctrlcAt := 0 } (by decide),
   ctrlc_debounce.2.1 1500000000 { ctrlcAt := 0 } (by decide)⟩

/-- C10: a freshly constructed client has its debounce timestamp at the zero
time, so the first interrupt gesture — occurring at any wall-clock instant
at least one second past the zero time — takes the warning branch and never
quits. -/
theorem first_ctrlc_always_warns (now : Int) (h : ctrlcTimeout ≤ now) :
    ctrlc now { ctrlcAt := newClientCtrlcAt }
      = ({ ctrlcAt := now }, [ctrlcWarning], none) := by
  unfold ctrlc
  rw [if_neg (by simp only [newClientCtrlcAt, ctrlcTimeout] at h ⊢; omega)]

/-- Witness for C10: a first gesture two seconds past the zero time warns
instead of quitting. -/
theorem first_ctrlc_always_warns_witness :
    ctrlc 2000000000 { ctrlcAt := newClientCtrlcAt }
      = ({ ctrlcAt := 2000000000 }, [ctrlcWarning], none) :=
  first_ctrlc_always_warns 2000000000 (by decide)

/-- C7: when `connect` fails to resolve or dial, the otto binding returns a
structured failure value naming the target and the cause — an ordinary
evaluator return value, not an abort — the Connection Slot (current handle,
close history, id counter) is unchanged, and no reader is spawned. -/
theorem connect_failure_nonfatal (target cause : String) (st : SlotState)
    (out : DialOutcome)
    (h : out = DialOutcome.resolveErr cause ∨ out = DialOutcome.dialErr cause) :
    connectBinding target out st
        = (OttoValue.errVal (connectErrMsg target cause), st)
    ∧ (connect out st).st = st
    ∧ (connect out st).readerSpawned = false := by
  rcases h with h | h <;> subst h <;> exact ⟨rfl, rfl, rfl⟩

/-- Witness for C7: a failed resolution of `example.com:4711` yields the
wrapped error value and leaves the initial slot untouched. -/
theorem connect_failure_nonfatal_witness :
    connectBinding "example.com:4711" (DialOutcome.resolveErr "no such host")
        initialSlot
      = (OttoValue.errVal (connectErrMsg "example.com:4711" "no such host"),
          initialSlot)
    ∧ (connect (DialOutcome.resolveErr "no such host") initialSlot).st = initialSlot
    ∧ (connect (DialOutcome.resolveErr "no such host") initialSlot).readerSpawned
        = false :=
  connect_failure_nonfatal "example.com:4711" "no such host" initialSlot _ (Or.inl rfl)

/-- C1: code-bug evaluation — with a connection installed, submitting the
line `hello` writes the bytes `hell` plus the line terminator to the
connection (the dispatcher drops the last character of the trimmed line via
`line[:len(line)-1]`), not `hello` plus the terminator as the spec's
dispatch-routing test requires; no "nowhere to send" notice is emitted. -/
theorem handleLine_sends_truncated_line :
    (handleLine (.ok "hello") (some 0) ottoStub none).events
      = [Event.clearInput, Event.setCursor 0 0, Event.netWrite "hell\n"]
    ∧ Event.netWrite "hello\n" ∉ (handleLine (.ok "hello") (some 0) ottoStub none).events
    ∧ Event.output (nowhereMsg "hello")
        ∉ (handleLine (.ok "hello") (some 0) ottoStub none).events := by
  exact ⟨by decide, by decide, by decide⟩

/-- C3: code-bug evaluation — submitting `/1+1` strips the sentinel but also
the final character, so the evaluator receives the truncated expression `1+`
(never `1+1`), its syntax error is displayed, and `2` is never displayed;
the line is not written to the network. -/
theorem handleLine_slash_truncated_expr :
    (handleLine (.ok "/1+1") (some 0) ottoStub none).events
      = [Event.clearInput, Event.setCursor 0 0, Event.scriptRun "1+",
          Event.output (errExecutingMsg "1+" "SyntaxError: Unexpected end of input")]
    ∧ Event.scriptRun "1+1" ∉ (handleLine (.ok "/1+1") (some 0) ottoStub none).events
    ∧ Event.output "2\n" ∉ (handleLine (.ok "/1+1") (some 0) ottoStub none).events
    ∧ Event.netWrite "1+1\n" ∉ (handleLine (.ok "/1+1") (some 0) ottoStub none).events := by
  exact ⟨by decide, by decide, by decide, by decide⟩

/-- C4: code-bug evaluation — a whitespace-only line trims to the empty
string, and `line[:len(line)-1]` then raises a slice-bounds runtime panic
instead of being a no-op (the emptiness guard `len(line) > 0` tests the line
before trimming); a genuinely empty line is handled without panic and
appends nothing. -/
theorem handleLine_whitespace_panics :
    (handleLine (.ok " ") none ottoStub none).panicMsg
        = some "slice bounds out of range"
    ∧ (handleLine (.ok " ") none ottoStub none).events
        = [Event.clearInput, Event.setCursor 0 0]
    ∧ (handleLine (.ok "") none ottoStub none).panicMsg = none
    ∧ (handleLine (.ok "") none ottoStub none).events
        = [Event.clearInput, Event.setCursor 0 0] := by
  exact ⟨by decide, by decide, by decide, by decide⟩

/-- An event is an Output Stream append. -/
def isOutputEvent : Event → Bool
  | .output _ => true
  | _ => false

/-- C8 counterexample: when the network write of a submitted line fails (the
`fmt.Fprintln` result is an error), no Output Stream append occurs at all —
the dispatcher discards the write result — contradicting the claim that an
inline notice reporting the write error is appended. -/
theorem write_error_unreported :
    ((handleLine (.ok "hix") (some 7) ottoStub
        (some "write: use of closed network connection")).events.filter isOutputEvent)
      = []
    ∧ (handleLine (.ok "hix") (some 7) ottoStub
        (some "write: use of closed network connection")).retErr = none
    ∧ (handleLine (.ok "hix") (some 7) ottoStub
        (some "write: use of closed network connection")).events
      = [Event.clearInput, Event.setCursor 0 0, Event.netWrite "hi\n"] := by
  exact ⟨by decide, by decide, by decide⟩

/-- C8 (amended): a failing network write is silently ignored — the entire
dispatch outcome is independent of the write result, so no error propagates
out of `handleLine` (it returns nil) and the input line is still cleared and
its cursor reset; but no notice reporting the write error is appended. -/
theorem write_failure_ignored (line : String) (c : Nat)
    (ot : String → Except String String) (e : String) :
    handleLine (.ok line) (some c) ot (some e)
        = handleLine (.ok line) (some c) ot none
    ∧ (handleLine (.ok line) (some c) ot (some e)).retErr = none
    ∧ (handleLine (.ok line) (some c) ot (some e)).events.take 2
        = [Event.clearInput, Event.setCursor 0 0] := by
  obtain ⟨rest, h1, _, h3⟩ := handleLine_ok_events_shape line (some c) ot (some e)
  refine ⟨rfl, h3, ?_⟩
  rw [h1]
  rfl

/-- C9 counterexample: the dispatch of the line `ping` with a connection
installed emits a network-write event, an effect outside the claim's list of
permitted side effects (clearing the input line, resetting the cursor,
appending to the Output Stream, Scripting Bridge effects). -/
theorem dispatch_effect_outside_claimed_list :
    (handleLine (.ok "ping") (some 3) ottoStub none).events.all
        isClaimedDispatchEffect = false := by
  decide

/-- C9 (amended): for every successfully read line — however it is routed,
and whether or not evaluation fails — the dispatch trace starts by clearing
the input view and resetting its cursor to the origin, and every further
effect is an Output Stream append, a Scripting Bridge invocation, or a write
of the payload to the connection. -/
theorem dispatch_frame (line : String) (conn : Option Nat)
    (ot : String → Except String String) (wr : Option String) :
    ∃ rest, (handleLine (.ok line) conn ot wr).events
        = Event.clearInput :: Event.setCursor 0 0 :: rest
      ∧ rest.all isDispatchTailEvent = true := by
  obtain ⟨rest, h1, h2, _⟩ := handleLine_ok_events_shape line conn ot wr
  exact ⟨rest, h1, h2⟩

end Mug
